import Mathlib

/-!
Verification of the AccessibilityAnalyzer scoring and report pipeline.

The definitions below are a shallow embedding of the JavaScript source in
`src/server.js` (two bundled revisions) and `src/unnamed/part_000`
(puppeteer-free revisions).  JavaScript numbers are modelled as exact
rationals, `Math.round` as floor of x + 1/2 (the source computes in
binary64; definitions where that distinction can matter say so in their
doc comments), and JavaScript string
operations (`includes`, single-occurrence `replace`, truthiness of strings
and possibly-undefined values) by explicit executable functions over
character lists.  External collaborators (the WHATWG URL parser, JSDOM
construction, the document store) are modelled as oracle arguments: the
handlers are embedded as pure decision functions of the request plus the
oracle outcomes.
-/

/-- JavaScript Math.round for the nonnegative values arising here:
round half away from zero, i.e. the floor of x + 1/2. -/
def jsRound (x : ℚ) : ℤ := ⌊x + 1 / 2⌋

/-- pat occurs at the head of s (over character lists). -/
def leadsWith : List Char → List Char → Bool
  | _, [] => true
  | [], _ :: _ => false
  | c :: cs, p :: ps => c = p && leadsWith cs ps

/-- pat occurs somewhere in s (over character lists). -/
def charsHave : List Char → List Char → Bool
  | [], pat => pat.isEmpty
  | c :: cs, pat => leadsWith (c :: cs) pat || charsHave cs pat

/-- Replace the first occurrence of pat in s by repl (over character lists);
model of the single-argument String.prototype.replace with the nonempty
literal patterns used by the source. -/
def charsReplaceFirst : List Char → List Char → List Char → List Char
  | [], _, _ => []
  | c :: cs, pat, repl =>
    if leadsWith (c :: cs) pat then repl ++ (c :: cs).drop pat.length
    else c :: charsReplaceFirst cs pat repl

/-- Model of JavaScript s.includes(pat). -/
def jsContains (s pat : String) : Bool := charsHave s.data pat.data

/-- Model of JavaScript s.replace(pat, repl) for a string literal pat:
only the first occurrence is replaced. -/
def jsReplaceFirst (s pat repl : String) : String :=
  ⟨charsReplaceFirst s.data pat.data repl.data⟩

/-- pre is a leading piece of s, as strings. -/
def strStarts (s pre : String) : Bool := leadsWith s.data pre.data

/-- JavaScript truthiness of a possibly-undefined string value:
undefined and the empty string are falsy. -/
def jsTruthy (o : Option String) : Bool :=
  match o with
  | none => false
  | some s => if s = "" then false else true

/-- Model of the JavaScript idiom value || dflt for a possibly-undefined
string value: the default is used when the value is undefined or empty. -/
def jsOrElse (o : Option String) (dflt : String) : String :=
  match o with
  | none => dflt
  | some s => if s = "" then dflt else s

/-- Lowering of an ASCII uppercase letter, the model of the character map
of toLowerCase for the plain-ASCII impact strings compared here. -/
def charLower (c : Char) : Char :=
  if 65 ≤ c.toNat ∧ c.toNat ≤ 90 then Char.ofNat (c.toNat + 32) else c

/-- Model of JavaScript s.toLowerCase(). -/
def jsToLower (s : String) : String := ⟨s.data.map charLower⟩

/-- Model of JavaScript s.trim(): strip leading and trailing whitespace. -/
def jsTrim (s : String) : String :=
  ⟨((s.data.dropWhile (fun c => c.isWhitespace)).reverse.dropWhile
      (fun c => c.isWhitespace)).reverse⟩

/-- One affected DOM node of an axe finding: a selector list (target) and a
serialized markup snippet (html). -/
structure AxeNode where
  target : List String
  html : String
deriving Repr, DecidableEq

/-- One raw axe finding (violation, pass or incomplete check).  impact and
helpUrl may be absent, which the source reaches through optional chaining
and truthiness tests. -/
structure AxeItem where
  id : String
  description : String
  help : String
  helpUrl : Option String
  impact : Option String
  tags : List String
  nodes : List AxeNode
deriving Repr, DecidableEq

/-- The three raw finding lists returned by the rule engine. -/
structure AxeResults where
  violations : List AxeItem
  passes : List AxeItem
  incomplete : List AxeItem
deriving Repr, DecidableEq

/-- calculateComplianceScore from src/server.js lines 73-81 (identical in
all bundled revisions): 100 on zero total checks, otherwise
round(((passes + 0.5 * incomplete) / total) * 100).  The source evaluates
the ratio in binary64, whose rounding can land just below a half-integer
that this exact-rational model hits (for 8 violations, 11 passes, 1
incomplete the source computes 57.49999999999999 and rounds to 57 where
this model gives 58); the range bounds and the concrete example proved
below are insensitive to that difference. -/
def calculateComplianceScore (violations passes incomplete : List AxeItem) : ℤ :=
  let totalChecks := violations.length + passes.length + incomplete.length
  if totalChecks = 0 then 100
  else
    let passedChecks : ℚ := passes.length
    let halfCredit : ℚ := (incomplete.length : ℚ) * (1 / 2)
    jsRound (((passedChecks + halfCredit) / (totalChecks : ℚ)) * 100)

/-- Property names every object literal inherits from Object.prototype;
a computed member read with one of these keys returns the inherited
truthy member (a function, or Object.prototype itself for __proto__)
instead of undefined, so an || default after the read is not applied. -/
def objectProtoKeys : List String :=
  ["constructor", "hasOwnProperty", "isPrototypeOf", "propertyIsEnumerable",
   "toLocaleString", "toString", "valueOf", "__proto__",
   "__defineGetter__", "__defineSetter__", "__lookupGetter__", "__lookupSetter__"]

/-- Result of a JavaScript lookup of the shape table[key] || dflt over an
object literal: a string (an own entry, or the default when the read gave
undefined), or the truthy non-string member inherited from
Object.prototype when the key names one of its properties. -/
inductive JsLookup where
  | str (s : String)
  | protoRef (key : String)
deriving Repr, DecidableEq

/-- The lookup produced a plain string value. -/
def JsLookup.isStr : JsLookup → Bool
  | .str _ => true
  | .protoRef _ => false

/-- mapSeverity from src/server.js lines 83-91 (first revision):
severityMap[impact?.toLowerCase()] || Moderate.  The object-literal read
walks the prototype chain: a key naming an Object.prototype property
yields the inherited truthy member and the || default is bypassed; any
other unknown key, and an absent impact (key undefined), read undefined
and fall to the Moderate default. -/
def mapSeverity (impact : Option String) : JsLookup :=
  match impact with
  | none => .str "Moderate"
  | some s =>
    let k := jsToLower s
    if k = "critical" then .str "Critical"
    else if k = "serious" then .str "Serious"
    else if k = "moderate" then .str "Moderate"
    else if k = "minor" then .str "Minor"
    else if objectProtoKeys.contains k then .protoRef k
    else .str "Moderate"

/-- mapSeverity from src/unnamed/part_000 lines 225-233: exact-key lookup
(no lowercasing) with uppercase labels and default MODERATE; the same
prototype-chain behavior applies to severityMap[impact]. -/
def mapSeverityU (impact : Option String) : JsLookup :=
  match impact with
  | none => .str "MODERATE"
  | some s =>
    if s = "critical" then .str "CRITICAL"
    else if s = "serious" then .str "SERIOUS"
    else if s = "moderate" then .str "MODERATE"
    else if s = "minor" then .str "MINOR"
    else if objectProtoKeys.contains s then .protoRef s
    else .str "MODERATE"

/-- mapSeverityToPriority from src/server.js lines 93-101, with the same
prototype-chain behavior for priorityMap[impact?.toLowerCase()]. -/
def mapSeverityToPriority (impact : Option String) : JsLookup :=
  match impact with
  | none => .str "Medium"
  | some s =>
    let k := jsToLower s
    if k = "critical" then .str "High"
    else if k = "serious" then .str "High"
    else if k = "moderate" then .str "Medium"
    else if k = "minor" then .str "Low"
    else if objectProtoKeys.contains k then .protoRef k
    else .str "Medium"

/-- getEstimatedEffort from src/server.js lines 103-111, with the same
prototype-chain behavior for effortMap[impact?.toLowerCase()]. -/
def getEstimatedEffort (impact : Option String) : JsLookup :=
  match impact with
  | none => .str "1 hour"
  | some s =>
    let k := jsToLower s
    if k = "critical" then .str "2-4 hours"
    else if k = "serious" then .str "1-3 hours"
    else if k = "moderate" then .str "30 minutes - 1 hour"
    else if k = "minor" then .str "15-30 minutes"
    else if objectProtoKeys.contains k then .protoRef k
    else .str "1 hour"

/-- getAffectedGroups from src/server.js lines 113-121; tags.includes here
is array membership, not substring search. -/
def getAffectedGroups (tags : List String) : List String :=
  let groups :=
    (if tags.contains "cat.keyboard" then ["Keyboard users"] else []) ++
    (if tags.contains "cat.images" then ["Screen reader users"] else []) ++
    (if tags.contains "cat.color" then ["Users with color blindness"] else []) ++
    (if tags.contains "cat.forms" then ["All users interacting with forms"] else [])
  if groups.length = 0 then ["All users"] else groups

/-- generateCodeExample from src/server.js lines 123-135. -/
def generateCodeExample (violation : AxeItem) : String :=
  if jsContains violation.id "color-contrast" then
    "<!-- Ensure sufficient color contrast -->\n<div style=\"color: #000; background: #fff;\">Good contrast</div>"
  else if jsContains violation.id "alt-text" then
    "<img src=\"image.jpg\" alt=\"Descriptive alt text for the image\">"
  else if jsContains violation.id "heading" then
    "<h1>Main heading</h1>\n<h2>Subheading</h2>"
  else
    "<!-- Review the element and apply appropriate accessibility fixes -->"

/-- getCategoryColor from src/server.js lines 203-211. -/
def getCategoryColor (category : String) : String :=
  if category = "Visual" then "#ef4444"
  else if category = "Navigation" then "#f97316"
  else if category = "Forms" then "#eab308"
  else if category = "ARIA" then "#06b6d4"
  else "#6b7280"

/-- getSeverityColor from src/server.js lines 213-221. -/
def getSeverityColor (severity : String) : String :=
  if severity = "Critical" then "#dc2626"
  else if severity = "Serious" then "#ea580c"
  else if severity = "Moderate" then "#d97706"
  else if severity = "Minor" then "#0891b2"
  else "#6b7280"

/-- getSeverityColor from src/unnamed/part_000 lines 343-351. -/
def getSeverityColorU (severity : String) : String :=
  if severity = "CRITICAL" then "#dc2626"
  else if severity = "SERIOUS" then "#ea580c"
  else if severity = "MODERATE" then "#d97706"
  else if severity = "MINOR" then "#0891b2"
  else "#6b7280"

/-- The per-severity counters of calculateSeverityBreakdown: the four keys
of the severities object, in insertion order. -/
structure SevCounts where
  critical : Nat
  serious : Nat
  moderate : Nat
  minor : Nat
deriving Repr, DecidableEq

/-- One loop step of calculateSeverityBreakdown: severities[severity]++
guarded by severities[severity] !== undefined.  Only the four own keys
are defined on severities, so a severity that is an inherited non-string
value (whose string coercion is never a property of severities) fails the
guard and the violation is skipped, as is any string outside the four. -/
def sevTally (acc : SevCounts) (sev : JsLookup) : SevCounts :=
  match sev with
  | .protoRef _ => acc
  | .str s =>
    if s = "Critical" then { acc with critical := acc.critical + 1 }
    else if s = "Serious" then { acc with serious := acc.serious + 1 }
    else if s = "Moderate" then { acc with moderate := acc.moderate + 1 }
    else if s = "Minor" then { acc with minor := acc.minor + 1 }
    else acc

/-- Same loop step for the uppercase keys of src/unnamed/part_000. -/
def sevTallyU (acc : SevCounts) (sev : JsLookup) : SevCounts :=
  match sev with
  | .protoRef _ => acc
  | .str s =>
    if s = "CRITICAL" then { acc with critical := acc.critical + 1 }
    else if s = "SERIOUS" then { acc with serious := acc.serious + 1 }
    else if s = "MODERATE" then { acc with moderate := acc.moderate + 1 }
    else if s = "MINOR" then { acc with minor := acc.minor + 1 }
    else acc

/-- One entry of the severityBreakdown array. -/
structure BreakdownEntry where
  name : String
  count : Nat
  color : String
deriving Repr, DecidableEq

/-- calculateSeverityBreakdown from src/server.js lines 168-201 (first
revision): count per severity, then emit all four entries in canonical
order, zero counts included. -/
def calculateSeverityBreakdown (violations : List AxeItem) : List BreakdownEntry :=
  let c := violations.foldl (fun acc v => sevTally acc (mapSeverity v.impact)) ⟨0, 0, 0, 0⟩
  [ ⟨"Critical", c.critical, getSeverityColor "Critical"⟩,
    ⟨"Serious", c.serious, getSeverityColor "Serious"⟩,
    ⟨"Moderate", c.moderate, getSeverityColor "Moderate"⟩,
    ⟨"Minor", c.minor, getSeverityColor "Minor"⟩ ]

/-- calculateSeverityBreakdown from src/unnamed/part_000 lines 309-331:
uppercase labels and zero-count entries filtered out. -/
def calculateSeverityBreakdownU (violations : List AxeItem) : List BreakdownEntry :=
  let c := violations.foldl (fun acc v => sevTallyU acc (mapSeverityU v.impact)) ⟨0, 0, 0, 0⟩
  ([ ⟨"CRITICAL", c.critical, getSeverityColorU "CRITICAL"⟩,
     ⟨"SERIOUS", c.serious, getSeverityColorU "SERIOUS"⟩,
     ⟨"MODERATE", c.moderate, getSeverityColorU "MODERATE"⟩,
     ⟨"MINOR", c.minor, getSeverityColorU "MINOR"⟩ ]).filter (fun e => 0 < e.count)

/-- calculateAccessibilityImpact from src/server.js lines 223-231:
min(round(15 * critical + 8 * serious + 2 * total), 100); the argument is
an integer so rounding is the identity. -/
def calculateAccessibilityImpact (violations : List AxeItem) : Nat :=
  let criticalCount := (violations.filter (fun v => v.impact = some "critical")).length
  let seriousCount := (violations.filter (fun v => v.impact = some "serious")).length
  let impact := criticalCount * 15 + seriousCount * 8 + violations.length * 2
  min impact 100

/-- The per-category counters of calculateIssueDistribution. -/
structure CatCounts where
  visual : Nat
  navigation : Nat
  forms : Nat
  aria : Nat
deriving Repr, DecidableEq

/-- One loop step of calculateIssueDistribution from src/server.js lines
137-157: first-matching category bucket, Visual as default. -/
def catStep (acc : CatCounts) (v : AxeItem) : CatCounts :=
  if v.tags.contains "cat.color" || v.tags.contains "cat.images" then
    { acc with visual := acc.visual + 1 }
  else if v.tags.contains "cat.keyboard" || v.tags.contains "cat.navigation" then
    { acc with navigation := acc.navigation + 1 }
  else if v.tags.contains "cat.forms" then
    { acc with forms := acc.forms + 1 }
  else if v.tags.contains "cat.aria" then
    { acc with aria := acc.aria + 1 }
  else
    { acc with visual := acc.visual + 1 }

/-- One entry of the issueDistribution array. -/
structure DistEntry where
  name : String
  value : ℤ
  color : String
deriving Repr, DecidableEq

/-- calculateIssueDistribution from src/server.js lines 137-166.  The
percentage is modelled in exact rationals where the source uses binary64,
which can differ at half-integer rounding boundaries; nothing proved
below depends on its values. -/
def calculateIssueDistribution (violations : List AxeItem) : List DistEntry :=
  let c := violations.foldl catStep ⟨0, 0, 0, 0⟩
  let total := c.visual + c.navigation + c.forms + c.aria
  let pct := fun (count : Nat) =>
    if 0 < total then jsRound (((count : ℚ) / (total : ℚ)) * 100) else 0
  [ ⟨"Visual", pct c.visual, getCategoryColor "Visual"⟩,
    ⟨"Navigation", pct c.navigation, getCategoryColor "Navigation"⟩,
    ⟨"Forms", pct c.forms, getCategoryColor "Forms"⟩,
    ⟨"ARIA", pct c.aria, getCategoryColor "ARIA"⟩ ]

/-- The wcagReference template of mapAxeResults (src/server.js line 249 and
the identical pass/incomplete lines): first tag containing the substring
wcag, with the first wcag occurrence removed; the empty result and the
missing tag both fall through the JavaScript || to N/A. -/
def wcagRefOf (tags : List String) : String :=
  "WCAG 2.1 SC " ++
    (match tags.find? (fun tag => jsContains tag "wcag") with
     | none => "N/A"
     | some tag =>
       let stripped := jsReplaceFirst tag "wcag" ""
       if stripped = "" then "N/A" else stripped)

/-- The wcagLevel expression of mapAxeResults (src/server.js line 250):
first tag containing the substring level (the wcag substring is not
required), with the first wcag and then the first level occurrences
removed; empty result or missing tag fall back to A. -/
def wcagLevelOf (tags : List String) : String :=
  match tags.find? (fun tag => jsContains tag "level") with
  | none => "A"
  | some tag =>
    let stripped := jsReplaceFirst (jsReplaceFirst tag "wcag" "") "level" ""
    if stripped = "" then "A" else stripped

/-- The element record of a mapped violation. -/
structure ElementInfo where
  selector : String
  lineNumber : String
  html : String
deriving Repr, DecidableEq

/-- One resource link of the fix instructions. -/
structure Resource where
  title : String
  url : String
deriving Repr, DecidableEq

/-- The fixInstructions record of a mapped violation. -/
structure FixInstructions where
  summary : String
  steps : List String
  codeExample : String
  priority : JsLookup
  estimatedEffort : JsLookup
  resources : List Resource
deriving Repr, DecidableEq

/-- One mapped violation of the report. -/
structure MappedViolation where
  id : String
  description : String
  severity : JsLookup
  wcagReference : String
  wcagLevel : String
  userImpact : String
  affectedGroups : List String
  element : ElementInfo
  fixInstructions : FixInstructions
deriving Repr, DecidableEq

/-- One mapped pass or incomplete check of the report. -/
structure MappedCheck where
  id : String
  description : String
  wcagReference : String
deriving Repr, DecidableEq

/-- The report built by mapAxeResults. -/
structure Report where
  type : String
  input : String
  timestamp : String
  complianceScore : ℤ
  totalIssues : Nat
  pagesScanned : Nat
  totalPagesFound : Nat
  accessibilityImpactScore : Nat
  violations : List MappedViolation
  passes : List MappedCheck
  incomplete : List MappedCheck
  issueDistribution : List DistEntry
  severityBreakdown : List BreakdownEntry
deriving Repr, DecidableEq

/-- violation.nodes[0]?.target[0] with optional chaining: undefined when
there is no node or the first node has no target entry. -/
def firstTarget (nodes : List AxeNode) : Option String :=
  match nodes with
  | [] => none
  | n :: _ => n.target.head?

/-- violation.nodes[0]?.html with optional chaining. -/
def firstHtml (nodes : List AxeNode) : Option String :=
  match nodes with
  | [] => none
  | n :: _ => some n.html

/-- The resources array of the fix instructions: a single guide link when
helpUrl is truthy, otherwise empty (src/server.js lines 268-271). -/
def resourcesOf (helpUrl : Option String) : List Resource :=
  match helpUrl with
  | none => []
  | some u => if u = "" then [] else [⟨"Detailed Fix Guide", u⟩]

/-- The per-violation mapping of mapAxeResults (src/server.js lines
245-273), with the running array index. -/
def mapOneViolation (index : Nat) (violation : AxeItem) : MappedViolation :=
  { id := "violation-" ++ toString index
    description := violation.description
    severity := mapSeverity violation.impact
    wcagReference := wcagRefOf violation.tags
    wcagLevel := wcagLevelOf violation.tags
    userImpact := violation.help
    affectedGroups := getAffectedGroups violation.tags
    element :=
      { selector := jsOrElse (firstTarget violation.nodes) "Unknown"
        lineNumber := "N/A"
        html := jsOrElse (firstHtml violation.nodes) "N/A" }
    fixInstructions :=
      { summary := violation.help
        steps :=
          [ "Identify the element: " ++ jsOrElse (firstTarget violation.nodes) "the affected element",
            if jsTruthy violation.helpUrl then
              "Follow the detailed guidance in the provided resource"
            else "Review accessibility guidelines",
            "Test the fix with assistive technologies" ]
        codeExample := generateCodeExample violation
        priority := mapSeverityToPriority violation.impact
        estimatedEffort := getEstimatedEffort violation.impact
        resources := resourcesOf violation.helpUrl } }

/-- JavaScript Array.prototype.map with the element index, as used by
violations.map((violation, index) => ...). -/
def mapWithIndex (f : Nat → AxeItem → MappedViolation) : Nat → List AxeItem → List MappedViolation
  | _, [] => []
  | i, v :: vs => f i v :: mapWithIndex f (i + 1) vs

/-- The per-pass and per-incomplete mapping of mapAxeResults
(src/server.js lines 276-287). -/
def mapOneCheck (item : AxeItem) : MappedCheck :=
  { id := item.id
    description := item.description
    wcagReference := wcagRefOf item.tags }

/-- mapAxeResults from src/server.js lines 233-317 (first revision).  The
timestamp produced by new Date().toISOString() is the single impure input
and is passed in as an argument. -/
def mapAxeResults (axeResults : AxeResults) (input : String) (type : String)
    (timestamp : String) : Report :=
  let violations := axeResults.violations
  let passes := axeResults.passes
  let incomplete := axeResults.incomplete
  { type := type
    input := if type = "url" then input else "HTML Content"
    timestamp := timestamp
    complianceScore := calculateComplianceScore violations passes incomplete
    totalIssues := violations.length
    pagesScanned := 1
    totalPagesFound := 1
    accessibilityImpactScore := calculateAccessibilityImpact violations
    violations := mapWithIndex mapOneViolation 0 violations
    passes := passes.map mapOneCheck
    incomplete := incomplete.map mapOneCheck
    issueDistribution := calculateIssueDistribution violations
    severityBreakdown := calculateSeverityBreakdown violations }

/-- Outcome of the pre-network validation phase of a handler: an early
HTTP rejection with a status and message, or the decision to proceed (for
analyze-url this is the point where the browser launch and navigation, the
first network actions, begin; the carried string is the navigation
target). -/
inductive ValidationOutcome where
  | reject (status : Nat) (msg : String)
  | proceed (target : String)
deriving Repr, DecidableEq

/-- True exactly on the reject outcomes. -/
def ValidationOutcome.isReject : ValidationOutcome → Bool
  | .reject _ _ => true
  | .proceed _ => false

/-- The parsed URL object produced by new URL(url); the WHATWG parser is
an external library, so the parse outcome is supplied as an oracle
argument of type Option ParsedUrl (none models a parser throw). -/
structure ParsedUrl where
  protocol : String
  href : String
deriving Repr, DecidableEq

/-- Validation prefix of POST /api/analyze-url, first revision
(src/server.js lines 342-393): reject a falsy url with 400, reject a
parser throw with 400, and otherwise proceed to the browser with the
parsed href.  No scheme check is performed. -/
def analyzeUrlValidateV1 (url : Option String) (parsed : Option ParsedUrl) : ValidationOutcome :=
  if !jsTruthy url then .reject 400 "URL is required"
  else
    match parsed with
    | none => .reject 400 "Invalid URL format"
    | some u => .proceed u.href

/-- Validation prefix of POST /api/analyze-url, second revision
(src/server.js lines 918-932): additionally reject any parsed URL whose
protocol is neither http: nor https: with 400, before the browser is
launched; navigation uses the original url string. -/
def analyzeUrlValidateV2 (url : Option String) (parsed : Option ParsedUrl) : ValidationOutcome :=
  if !jsTruthy url then .reject 400 "URL is required"
  else
    match parsed with
    | none => .reject 400 "Invalid URL format"
    | some u =>
      if u.protocol = "http:" || u.protocol = "https:" then
        .proceed (url.getD "")
      else .reject 400 "URL must use HTTP or HTTPS protocol"

/-- Validation prefix of POST /api/analyze-html, first revision
(src/server.js lines 463-491): reject falsy content, reject content that
is empty after trimming, reject a JSDOM constructor throw (oracle
argument domOk), and otherwise proceed to the analysis.  There is no
tag-structure check. -/
def analyzeHtmlValidateV1 (htmlContent : Option String) (domOk : Bool) : ValidationOutcome :=
  if !jsTruthy htmlContent then .reject 400 "HTML content is required"
  else
    let s := htmlContent.getD ""
    if jsTrim s = "" then .reject 400 "HTML content must be a non-empty string"
    else if !domOk then .reject 400 "Invalid HTML content. Please check your HTML syntax."
    else .proceed s

/-- Validation prefix of POST /api/analyze-html, second revision
(src/server.js lines 1035-1043, identical in src/unnamed/part_000 lines
479-490): reject falsy content, reject content lacking a < or a >, and
otherwise proceed to the analysis. -/
def analyzeHtmlValidateV2 (htmlContent : Option String) : ValidationOutcome :=
  if !jsTruthy htmlContent then .reject 400 "HTML content is required"
  else
    let s := htmlContent.getD ""
    if !(jsContains s "<") || !(jsContains s ">") then
      .reject 400 "Please provide valid HTML content"
    else .proceed s

/-- The HTTP response produced after the report is built. -/
inductive HandlerResponse where
  | ok (data : Report)
  | err (status : Nat) (msg : String)
deriving Repr, DecidableEq

/-- Persistence tail of the analyze handlers (src/server.js lines 422-443
and the identical blocks of the other revisions): when the store is
connected the save is attempted inside its own try/catch whose failure is
only logged; the success response carrying the report is sent in every
case.  The save outcome is an oracle argument; the second component
collects the log lines. -/
def persistAndRespond (dbConnected : Bool) (saveResult : Except String Unit)
    (report : Report) : HandlerResponse × List String :=
  if dbConnected then
    match saveResult with
    | .ok _ => (.ok report, ["Analysis saved to database"])
    | .error e => (.ok report, ["Failed to save to database: " ++ e])
  else (.ok report, [])


/-- The HTTP status of an outcome (0 on proceed, which sends no early
response). -/
def ValidationOutcome.status : ValidationOutcome → Nat
  | .reject st _ => st
  | .proceed _ => 0

/-- Total of the four severity counters. -/
def sumCounts (c : SevCounts) : Nat := c.critical + c.serious + c.moderate + c.minor

/-- Total of the counts of a severityBreakdown array. -/
def bdSum (l : List BreakdownEntry) : Nat := (l.map (fun e => e.count)).sum

/-- Spec example input: a critical violation, a minor violation, ten
passes and no incomplete checks. -/
def exampleCriticalViolation : AxeItem :=
  { id := "image-alt"
    description := "Images must have alternate text"
    help := "Provide alternative text"
    helpUrl := some "https://dequeuniversity.com/rules/axe/4.4/image-alt"
    impact := some "critical"
    tags := ["cat.images", "wcag2a", "wcag111"]
    nodes := [⟨["img"], "<img src=\"logo.png\">"⟩] }

/-- Spec example input, minor violation. -/
def exampleMinorViolation : AxeItem :=
  { id := "region"
    description := "All page content should be contained by landmarks"
    help := "Use landmarks"
    helpUrl := none
    impact := some "minor"
    tags := ["cat.keyboard", "best-practice"]
    nodes := [] }

/-- Spec example input, one pass. -/
def examplePass : AxeItem :=
  { id := "document-title"
    description := "Documents must have a title"
    help := "Document has a title"
    helpUrl := none
    impact := none
    tags := ["wcag2a", "wcag242"]
    nodes := [] }

/-- Spec example raw findings: 2 violations, 10 passes, 0 incomplete. -/
def exampleFindings : AxeResults :=
  { violations := [exampleCriticalViolation, exampleMinorViolation]
    passes := List.replicate 10 examplePass
    incomplete := [] }

/-- A violation whose only tag is wcag2a, for the reference example. -/
def wcag2aViolation : AxeItem :=
  { id := "label"
    description := "Form elements must have labels"
    help := "Add a label"
    helpUrl := none
    impact := some "serious"
    tags := ["wcag2a"]
    nodes := [] }

/-- A violation whose only tag contains level but not wcag. -/
def levelOnlyViolation : AxeItem :=
  { id := "focus-order-semantics"
    description := "Elements in the focus order should have a semantic role"
    help := "Use semantic markup"
    helpUrl := none
    impact := some "minor"
    tags := ["xlevely"]
    nodes := [] }

/-- A violation whose impact names an Object.prototype property. -/
def constructorImpactViolation : AxeItem :=
  { id := "aria-roles"
    description := "ARIA roles used must conform to valid values"
    help := "Use valid role values"
    helpUrl := none
    impact := some "constructor"
    tags := []
    nodes := [] }

/-! Shared lemmas -/

lemma jsRound_nonneg {x : ℚ} (hx : 0 ≤ x) : 0 ≤ jsRound x := by
  unfold jsRound
  have h : ((0 : ℤ) : ℚ) ≤ x + 1 / 2 := by push_cast; linarith
  exact Int.le_floor.2 h

lemma jsRound_le_hundred {x : ℚ} (hx : x ≤ 100) : jsRound x ≤ 100 := by
  unfold jsRound
  have h2 : ((⌊x + 1 / 2⌋ : ℤ) : ℚ) < ((101 : ℤ) : ℚ) := by
    have h := Int.floor_le (x + 1 / 2)
    push_cast
    linarith
  have h3 : ⌊x + 1 / 2⌋ < 101 := Int.cast_lt.1 h2
  omega

lemma mapSeverity_shape (impact : Option String) :
    mapSeverity impact = .str "Critical" ∨ mapSeverity impact = .str "Serious" ∨
    mapSeverity impact = .str "Moderate" ∨ mapSeverity impact = .str "Minor" ∨
    ∃ k, mapSeverity impact = .protoRef k := by
  cases impact with
  | none => simp [mapSeverity]
  | some s =>
    simp only [mapSeverity]
    split_ifs <;> simp

lemma mapSeverityU_shape (impact : Option String) :
    mapSeverityU impact = .str "CRITICAL" ∨ mapSeverityU impact = .str "SERIOUS" ∨
    mapSeverityU impact = .str "MODERATE" ∨ mapSeverityU impact = .str "MINOR" ∨
    ∃ k, mapSeverityU impact = .protoRef k := by
  cases impact with
  | none => simp [mapSeverityU]
  | some s =>
    simp only [mapSeverityU]
    split_ifs <;> simp

lemma sevTally_mapSeverity_sum (acc : SevCounts) (impact : Option String) :
    sumCounts (sevTally acc (mapSeverity impact))
      = sumCounts acc + (if (mapSeverity impact).isStr then 1 else 0) := by
  rcases mapSeverity_shape impact with h | h | h | h | ⟨k, h⟩ <;>
    rw [h] <;> simp [sevTally, JsLookup.isStr, sumCounts] <;> omega

lemma sevTallyU_mapSeverityU_sum (acc : SevCounts) (impact : Option String) :
    sumCounts (sevTallyU acc (mapSeverityU impact))
      = sumCounts acc + (if (mapSeverityU impact).isStr then 1 else 0) := by
  rcases mapSeverityU_shape impact with h | h | h | h | ⟨k, h⟩ <;>
    rw [h] <;> simp [sevTallyU, JsLookup.isStr, sumCounts] <;> omega

lemma foldl_sevTally_filter (vs : List AxeItem) :
    ∀ acc : SevCounts,
      sumCounts (vs.foldl (fun acc v => sevTally acc (mapSeverity v.impact)) acc)
        = sumCounts acc
            + (vs.filter (fun v => (mapSeverity v.impact).isStr)).length := by
  induction vs with
  | nil => intro acc; simp
  | cons v vs ih =>
    intro acc
    simp only [List.foldl_cons, List.filter_cons]
    rw [ih, sevTally_mapSeverity_sum]
    by_cases hv : (mapSeverity v.impact).isStr <;> simp [hv] <;> omega

lemma foldl_sevTallyU_filter (vs : List AxeItem) :
    ∀ acc : SevCounts,
      sumCounts (vs.foldl (fun acc v => sevTallyU acc (mapSeverityU v.impact)) acc)
        = sumCounts acc
            + (vs.filter (fun v => (mapSeverityU v.impact).isStr)).length := by
  induction vs with
  | nil => intro acc; simp
  | cons v vs ih =>
    intro acc
    simp only [List.foldl_cons, List.filter_cons]
    rw [ih, sevTallyU_mapSeverityU_sum]
    by_cases hv : (mapSeverityU v.impact).isStr <;> simp [hv] <;> omega

lemma bdSum_filter_pos (l : List BreakdownEntry) :
    bdSum (l.filter (fun e => 0 < e.count)) = bdSum l := by
  induction l with
  | nil => rfl
  | cons e l ih =>
    by_cases h : 0 < e.count
    · simp [bdSum, List.filter_cons, h] at ih ⊢
      omega
    · have hz : e.count = 0 := by omega
      simp [bdSum, List.filter_cons, h, hz] at ih ⊢
      omega

lemma calculateSeverityBreakdown_sum (vs : List AxeItem) :
    bdSum (calculateSeverityBreakdown vs)
      = (vs.filter (fun v => (mapSeverity v.impact).isStr)).length := by
  have h := foldl_sevTally_filter vs ⟨0, 0, 0, 0⟩
  simp only [calculateSeverityBreakdown, bdSum, List.map_cons, List.map_nil, List.sum_cons,
    List.sum_nil]
  simp only [sumCounts] at h
  omega

lemma calculateSeverityBreakdownU_sum (vs : List AxeItem) :
    bdSum (calculateSeverityBreakdownU vs)
      = (vs.filter (fun v => (mapSeverityU v.impact).isStr)).length := by
  have h := foldl_sevTallyU_filter vs ⟨0, 0, 0, 0⟩
  simp only [calculateSeverityBreakdownU]
  rw [bdSum_filter_pos]
  simp only [bdSum, List.map_cons, List.map_nil, List.sum_cons, List.sum_nil]
  simp only [sumCounts] at h
  omega

/-! Claim theorems -/

lemma calculateComplianceScore_bounds (v p i : List AxeItem) :
    0 ≤ calculateComplianceScore v p i ∧ calculateComplianceScore v p i ≤ 100 := by
  simp only [calculateComplianceScore]
  split_ifs with h
  · constructor <;> norm_num
  · have ht : (0 : ℚ) < ((v.length + p.length + i.length : ℕ) : ℚ) := by
      exact_mod_cast Nat.pos_of_ne_zero h
    have hnum0 : (0 : ℚ) ≤ (p.length : ℚ) + (i.length : ℚ) * (1 / 2) := by positivity
    have hnum : (p.length : ℚ) + (i.length : ℚ) * (1 / 2)
        ≤ ((v.length + p.length + i.length : ℕ) : ℚ) := by
      push_cast
      have h1 : (0 : ℚ) ≤ (v.length : ℚ) := Nat.cast_nonneg _
      have h2 : (0 : ℚ) ≤ (i.length : ℚ) := Nat.cast_nonneg _
      linarith
    have hdiv1 : ((p.length : ℚ) + (i.length : ℚ) * (1 / 2))
        / ((v.length + p.length + i.length : ℕ) : ℚ) ≤ 1 := (div_le_one ht).2 hnum
    have hx0 : (0 : ℚ) ≤ ((p.length : ℚ) + (i.length : ℚ) * (1 / 2))
        / ((v.length + p.length + i.length : ℕ) : ℚ) * 100 := by positivity
    have hx100 : ((p.length : ℚ) + (i.length : ℚ) * (1 / 2))
        / ((v.length + p.length + i.length : ℕ) : ℚ) * 100 ≤ 100 := by
      have := mul_le_mul_of_nonneg_right hdiv1 (by norm_num : (0 : ℚ) ≤ 100)
      linarith
    exact ⟨jsRound_nonneg hx0, jsRound_le_hundred hx100⟩

/-- C3: every report has a compliance score and an accessibility impact
score between 0 and 100 inclusive. -/
theorem report_scores_bounded (r : AxeResults) (input type ts : String) :
    0 ≤ (mapAxeResults r input type ts).complianceScore ∧
    (mapAxeResults r input type ts).complianceScore ≤ 100 ∧
    0 ≤ (mapAxeResults r input type ts).accessibilityImpactScore ∧
    (mapAxeResults r input type ts).accessibilityImpactScore ≤ 100 := by
  refine ⟨(calculateComplianceScore_bounds _ _ _).1,
          (calculateComplianceScore_bounds _ _ _).2, Nat.zero_le _, ?_⟩
  show calculateAccessibilityImpact r.violations ≤ 100
  unfold calculateAccessibilityImpact
  exact min_le_right _ _

/-- C4 counterexample: for a violation with impact constructor, the
severityMap read inherits the truthy Object.prototype.constructor, the
|| default is bypassed, and the severities guard skips the violation: the
breakdown counts sum to 0 while totalIssues is 1. -/
theorem severity_prototype_counterexample :
    bdSum (mapAxeResults ⟨[constructorImpactViolation], [], []⟩
        "in" "url" "ts").severityBreakdown = 0
    ∧ (mapAxeResults ⟨[constructorImpactViolation], [], []⟩
        "in" "url" "ts").totalIssues = 1
    ∧ (0 : Nat) ≠ 1 := by
  decide

/-- C4 amended: the severity breakdown counts sum to the number of
violations whose severity lookup yields a string label (every such label
lands in exactly one of the four buckets, unrecognized or absent impacts
defaulting to the moderate one); an impact naming an Object.prototype
property makes the lookup return an inherited truthy non-label value that
the severities guard skips, reducing the sum by one per such violation;
for violation lists free of such impacts, e.g. the spec example, the
counts sum exactly to totalIssues.  The same holds for the puppeteer-free
revision with its zero-count buckets filtered out. -/
theorem severityBreakdown_sum_amended (r : AxeResults)
    (input type ts : String) :
    bdSum (mapAxeResults r input type ts).severityBreakdown
        = (r.violations.filter (fun v => (mapSeverity v.impact).isStr)).length
      ∧ (∀ vs : List AxeItem,
          bdSum (calculateSeverityBreakdownU vs)
            = (vs.filter (fun v => (mapSeverityU v.impact).isStr)).length)
      ∧ bdSum (calculateSeverityBreakdown exampleFindings.violations)
          = exampleFindings.violations.length := by
  refine ⟨?_, calculateSeverityBreakdownU_sum, by decide⟩
  show bdSum (calculateSeverityBreakdown r.violations) = _
  exact calculateSeverityBreakdown_sum r.violations

/-- C8: a persistence failure never fails the request: whatever the store
connection state and the save outcome, the handler responds with the
success envelope carrying the computed report. -/
theorem persistence_failure_nonfatal (dbConnected : Bool)
    (saveResult : Except String Unit) (report : Report) :
    (persistAndRespond dbConnected saveResult report).1 = HandlerResponse.ok report := by
  cases dbConnected <;> cases saveResult <;> rfl

/-- C9: the report builder is deterministic: two runs on identical raw
findings, input echo and request type agree on every field except the
timestamp. -/
theorem mapAxeResults_deterministic_up_to_timestamp (r : AxeResults)
    (input type ts1 ts2 : String) :
    (mapAxeResults r input type ts1).type = (mapAxeResults r input type ts2).type ∧
    (mapAxeResults r input type ts1).input = (mapAxeResults r input type ts2).input ∧
    (mapAxeResults r input type ts1).complianceScore
      = (mapAxeResults r input type ts2).complianceScore ∧
    (mapAxeResults r input type ts1).totalIssues
      = (mapAxeResults r input type ts2).totalIssues ∧
    (mapAxeResults r input type ts1).pagesScanned
      = (mapAxeResults r input type ts2).pagesScanned ∧
    (mapAxeResults r input type ts1).totalPagesFound
      = (mapAxeResults r input type ts2).totalPagesFound ∧
    (mapAxeResults r input type ts1).accessibilityImpactScore
      = (mapAxeResults r input type ts2).accessibilityImpactScore ∧
    (mapAxeResults r input type ts1).violations
      = (mapAxeResults r input type ts2).violations ∧
    (mapAxeResults r input type ts1).passes = (mapAxeResults r input type ts2).passes ∧
    (mapAxeResults r input type ts1).incomplete
      = (mapAxeResults r input type ts2).incomplete ∧
    (mapAxeResults r input type ts1).issueDistribution
      = (mapAxeResults r input type ts2).issueDistribution ∧
    (mapAxeResults r input type ts1).severityBreakdown
      = (mapAxeResults r input type ts2).severityBreakdown :=
  ⟨rfl, rfl, rfl, rfl, rfl, rfl, rfl, rfl, rfl, rfl, rfl, rfl⟩

lemma leadsWith_append (l m : List Char) : leadsWith (l ++ m) l = true := by
  induction l with
  | nil => simp [leadsWith]
  | cons c cs ih => simp [leadsWith, ih]

lemma strStarts_append (pre rest : String) : strStarts (pre ++ rest) pre = true := by
  cases pre with
  | mk l =>
    cases rest with
    | mk m => exact leadsWith_append l m

lemma wcagRefOf_starts (tags : List String) :
    strStarts (wcagRefOf tags) "WCAG 2.1 SC " = true := by
  unfold wcagRefOf
  exact strStarts_append _ _

lemma mapWithIndex_all {g : MappedViolation → Bool} {h : AxeItem → Bool}
    (hg : ∀ n v, g (mapOneViolation n v) = h v) :
    ∀ (n : Nat) (vs : List AxeItem),
      (mapWithIndex mapOneViolation n vs).all g = vs.all h := by
  intro n vs
  induction vs generalizing n with
  | nil => rfl
  | cons v vs ih => simp [mapWithIndex, List.all_cons, hg, ih]

lemma mapWithIndex_map {β : Type} {g : MappedViolation → β} {h : AxeItem → β}
    (hg : ∀ n v, g (mapOneViolation n v) = h v) :
    ∀ (n : Nat) (vs : List AxeItem),
      (mapWithIndex mapOneViolation n vs).map g = vs.map h := by
  intro n vs
  induction vs generalizing n with
  | nil => rfl
  | cons v vs ih => simp [mapWithIndex, List.map_cons, hg, ih]

/-- C2: on the spec example input (2 violations with impact critical and
minor, 10 passes, 0 incomplete) the report has complianceScore 83,
accessibilityImpactScore 19, and a severity breakdown with exactly one
Critical entry, of count 1, and exactly one Minor entry, of count 1. -/
theorem exampleReport_values (ts : String) :
    (mapAxeResults exampleFindings "https://example.com" "url" ts).complianceScore = 83 ∧
    (mapAxeResults exampleFindings "https://example.com" "url" ts).accessibilityImpactScore
        = 19 ∧
    ((mapAxeResults exampleFindings "https://example.com" "url" ts).severityBreakdown.filter
        (fun e => e.name == "Critical")).map (fun e => e.count) = [1] ∧
    ((mapAxeResults exampleFindings "https://example.com" "url" ts).severityBreakdown.filter
        (fun e => e.name == "Minor")).map (fun e => e.count) = [1] := by
  refine ⟨?_, ?_, ?_, ?_⟩
  · show calculateComplianceScore exampleFindings.violations exampleFindings.passes
      exampleFindings.incomplete = 83
    norm_num [calculateComplianceScore, exampleFindings, List.length_replicate, jsRound]
  · show calculateAccessibilityImpact exampleFindings.violations = 19
    decide
  · show ((calculateSeverityBreakdown exampleFindings.violations).filter
        (fun e => e.name == "Critical")).map (fun e => e.count) = [1]
    decide
  · show ((calculateSeverityBreakdown exampleFindings.violations).filter
        (fun e => e.name == "Minor")).map (fun e => e.count) = [1]
    decide

/-- C10: every wcagReference in a built report begins with the fixed
literal "WCAG 2.1 SC "; a violation tagged only wcag2a is rendered as
"WCAG 2.1 SC 2a"; and whenever no tag of a finding contains wcag the
reference equals "WCAG 2.1 SC N/A". -/
theorem wcagReference_fixed_literal (r : AxeResults) (input type ts : String) :
    ((mapAxeResults r input type ts).violations.all
        (fun mv => strStarts mv.wcagReference "WCAG 2.1 SC ")) = true ∧
    ((mapAxeResults r input type ts).passes.all
        (fun mc => strStarts mc.wcagReference "WCAG 2.1 SC ")) = true ∧
    ((mapAxeResults r input type ts).incomplete.all
        (fun mc => strStarts mc.wcagReference "WCAG 2.1 SC ")) = true ∧
    ((mapAxeResults ⟨[wcag2aViolation], [], []⟩ input type ts).violations.map
        (fun mv => mv.wcagReference)) = ["WCAG 2.1 SC 2a"] ∧
    (∀ tags : List String,
      (tags.any (fun tag => jsContains tag "wcag")
        || (wcagRefOf tags == "WCAG 2.1 SC N/A")) = true) := by
  refine ⟨?_, ?_, ?_, ?_, ?_⟩
  · show (mapWithIndex mapOneViolation 0 r.violations).all _ = true
    rw [mapWithIndex_all (h := fun v => strStarts (wcagRefOf v.tags) "WCAG 2.1 SC ")
      (fun n v => rfl)]
    simp only [List.all_eq_true]
    intro v _
    exact wcagRefOf_starts v.tags
  · show (r.passes.map mapOneCheck).all _ = true
    simp only [List.all_eq_true]
    intro x hx
    obtain ⟨v, _, rfl⟩ := List.mem_map.1 hx
    exact wcagRefOf_starts v.tags
  · show (r.incomplete.map mapOneCheck).all _ = true
    simp only [List.all_eq_true]
    intro x hx
    obtain ⟨v, _, rfl⟩ := List.mem_map.1 hx
    exact wcagRefOf_starts v.tags
  · show (mapWithIndex mapOneViolation 0 [wcag2aViolation]).map
        (fun mv => mv.wcagReference) = ["WCAG 2.1 SC 2a"]
    decide
  · intro tags
    cases hany : tags.any (fun tag => jsContains tag "wcag") with
    | true => simp
    | false =>
      have hnone : tags.find? (fun tag => jsContains tag "wcag") = none := by
        rw [List.find?_eq_none]
        intro x hx
        have := (List.any_eq_false).1 hany x hx
        simpa using this
      simp only [Bool.false_or, wcagRefOf, hnone]
      decide

/-- C5 counterexample: the level extraction does not require the tag to
contain wcag.  The violation tagged only xlevely has no tag containing
both wcag and level, yet its mapped wcagLevel is xy (first wcag and level
occurrences stripped from xlevely), not the claimed fallback A. -/
theorem wcagLevel_both_substrings_counterexample :
    (["xlevely"].all (fun tag =>
        !(jsContains tag "wcag" && jsContains tag "level"))) = true
      ∧ (mapAxeResults ⟨[levelOnlyViolation], [], []⟩ "input" "html" "ts").violations.map
          (fun mv => mv.wcagLevel) = ["xy"]
      ∧ ("xy" : String) ≠ "A" := by
  decide

/-- C5 amended: the reference is taken from the first tag containing the
substring wcag, with its first wcag occurrence removed, falling back to
N/A when no such tag exists or the removal leaves the empty string; the
level is taken from the first tag containing the substring level, whether
or not it also contains wcag, with its first wcag occurrence and then its
first level occurrence removed, falling back to A when no such tag exists
or the removal leaves the empty string; a violation tagged wcag2a with no
level tag gets reference WCAG 2.1 SC 2a and level A. -/
theorem wcag_extraction_amended (r : AxeResults) (input type ts : String) :
    ((mapAxeResults r input type ts).violations.map (fun mv => mv.wcagLevel)
      = r.violations.map (fun v =>
          match v.tags.find? (fun tag => jsContains tag "level") with
          | none => "A"
          | some tag =>
            if jsReplaceFirst (jsReplaceFirst tag "wcag" "") "level" "" = "" then "A"
            else jsReplaceFirst (jsReplaceFirst tag "wcag" "") "level" ""))
    ∧ ((mapAxeResults r input type ts).violations.map (fun mv => mv.wcagReference)
      = r.violations.map (fun v =>
          "WCAG 2.1 SC " ++
            match v.tags.find? (fun tag => jsContains tag "wcag") with
            | none => "N/A"
            | some tag =>
              if jsReplaceFirst tag "wcag" "" = "" then "N/A"
              else jsReplaceFirst tag "wcag" ""))
    ∧ wcagLevelOf ["wcag2a"] = "A" ∧ wcagRefOf ["wcag2a"] = "WCAG 2.1 SC 2a" := by
  refine ⟨?_, ?_, by decide, by decide⟩
  · show (mapWithIndex mapOneViolation 0 r.violations).map _ = _
    exact mapWithIndex_map (fun n v => rfl) 0 r.violations
  · show (mapWithIndex mapOneViolation 0 r.violations).map _ = _
    exact mapWithIndex_map (fun n v => rfl) 0 r.violations

/-- C6 counterexample: the first revision of the analyze-url handler does
not check the scheme: a parseable ftp URL passes validation and the
handler proceeds to the browser launch and navigation. -/
theorem url_scheme_unchecked_counterexample :
    analyzeUrlValidateV1 (some "ftp://example.com")
        (some ⟨"ftp:", "ftp://example.com/"⟩)
      = ValidationOutcome.proceed "ftp://example.com/"
    ∧ (analyzeUrlValidateV1 (some "ftp://example.com")
        (some ⟨"ftp:", "ftp://example.com/"⟩)).isReject = false := by
  decide

/-- C6 amended: a missing URL or a URL that fails to parse is rejected
with HTTP 400 before any network action in both revisions; the second
revision additionally rejects, with 400 and before any network action,
every parsed URL whose protocol is neither http: nor https:, while the
first revision proceeds to the network for every parseable URL regardless
of scheme. -/
theorem url_validation_per_revision (u : String) (p : ParsedUrl)
    (parsed : Option ParsedUrl) :
    (analyzeUrlValidateV1 none parsed = .reject 400 "URL is required"
      ∧ analyzeUrlValidateV2 none parsed = .reject 400 "URL is required")
    ∧ ((analyzeUrlValidateV1 (some u) none).isReject = true
      ∧ (analyzeUrlValidateV1 (some u) none).status = 400
      ∧ (analyzeUrlValidateV2 (some u) none).isReject = true
      ∧ (analyzeUrlValidateV2 (some u) none).status = 400)
    ∧ (analyzeUrlValidateV2 (some u) (some p)).isReject
        = ((u == "") || !(p.protocol == "http:" || p.protocol == "https:"))
    ∧ (analyzeUrlValidateV1 (some u) (some p)).isReject = (u == "") := by
  refine ⟨⟨rfl, rfl⟩, ?_, ?_, ?_⟩
  · by_cases h : u = "" <;>
      simp [analyzeUrlValidateV1, analyzeUrlValidateV2, jsTruthy, h,
        ValidationOutcome.isReject, ValidationOutcome.status]
  · by_cases h : u = ""
    · simp [analyzeUrlValidateV2, jsTruthy, h, ValidationOutcome.isReject]
    · by_cases hp : p.protocol = "http:" ∨ p.protocol = "https:" <;>
        simp [analyzeUrlValidateV2, jsTruthy, h, hp, ValidationOutcome.isReject] <;>
        tauto
  · by_cases h : u = "" <;>
      simp [analyzeUrlValidateV1, jsTruthy, h, ValidationOutcome.isReject]

/-- C7 counterexample: the first revision of the analyze-html handler has
no tag-structure check: the markup hello, which contains no < or >,
passes validation (its DOM construction succeeds, as HTML parsing of
plain text does not throw) and the handler proceeds to the analysis
instead of rejecting with 400. -/
theorem tagless_markup_unchecked_counterexample :
    analyzeHtmlValidateV1 (some "hello") true = ValidationOutcome.proceed "hello"
    ∧ jsContains "hello" "<" = false
    ∧ (analyzeHtmlValidateV1 (some "hello") true).isReject = false := by
  decide

/-- C7 amended: the second revision and the puppeteer-free revision
reject with HTTP 400, and perform no analysis, exactly the html requests
whose markup is missing, empty, or lacks a < or a > character (the
missing-markup rejection is the required-content 400); the first revision
rejects, always with status 400, exactly the requests whose markup is
missing or blank after trimming or whose DOM construction fails, and so
passes tag-less markup such as hello through to the analysis. -/
theorem html_validation_per_revision (s : String) (h : Option String)
    (domOk : Bool) :
    ((analyzeHtmlValidateV2 h).isReject
        = (!jsTruthy h || !(jsContains (h.getD "") "<")
            || !(jsContains (h.getD "") ">")))
    ∧ ((analyzeHtmlValidateV2 (some s)).isReject
        = ((s == "") || !(jsContains s "<") || !(jsContains s ">")))
    ∧ analyzeHtmlValidateV2 none = ValidationOutcome.reject 400 "HTML content is required"
    ∧ ((!(analyzeHtmlValidateV2 h).isReject)
        || ((analyzeHtmlValidateV2 h).status == 400)) = true
    ∧ ((analyzeHtmlValidateV1 h domOk).isReject
        = (!jsTruthy h || (jsTrim (h.getD "") == "") || !domOk))
    ∧ ((!(analyzeHtmlValidateV1 h domOk).isReject)
        || ((analyzeHtmlValidateV1 h domOk).status == 400)) = true
    ∧ analyzeHtmlValidateV1 (some "hello") true = ValidationOutcome.proceed "hello" := by
  refine ⟨?_, ?_, by decide, ?_, ?_, ?_, by decide⟩
  · cases h with
    | none => decide
    | some t =>
      by_cases ht : t = ""
      · simp [analyzeHtmlValidateV2, jsTruthy, ht, ValidationOutcome.isReject]
      · by_cases h1 : jsContains t "<" <;> by_cases h2 : jsContains t ">" <;>
          simp [analyzeHtmlValidateV2, jsTruthy, ht, h1, h2, ValidationOutcome.isReject]
  · by_cases hs : s = ""
    · simp [analyzeHtmlValidateV2, jsTruthy, hs, ValidationOutcome.isReject]
    · by_cases h1 : jsContains s "<" <;> by_cases h2 : jsContains s ">" <;>
        simp [analyzeHtmlValidateV2, jsTruthy, hs, h1, h2, ValidationOutcome.isReject]
  · cases h with
    | none => decide
    | some t =>
      by_cases ht : t = ""
      · simp [analyzeHtmlValidateV2, jsTruthy, ht, ValidationOutcome.isReject,
          ValidationOutcome.status]
      · by_cases h1 : jsContains t "<" <;> by_cases h2 : jsContains t ">" <;>
          simp [analyzeHtmlValidateV2, jsTruthy, ht, h1, h2, ValidationOutcome.isReject,
            ValidationOutcome.status]
  · cases h with
    | none => cases domOk <;> decide
    | some t =>
      by_cases ht : t = ""
      · cases domOk <;>
          simp [analyzeHtmlValidateV1, jsTruthy, ht, ValidationOutcome.isReject]
      · by_cases htr : jsTrim t = ""
        · cases domOk <;>
            simp [analyzeHtmlValidateV1, jsTruthy, ht, htr, ValidationOutcome.isReject]
        · cases domOk <;>
            simp [analyzeHtmlValidateV1, jsTruthy, ht, htr, ValidationOutcome.isReject]
  · cases h with
    | none => cases domOk <;> decide
    | some t =>
      by_cases ht : t = ""
      · cases domOk <;>
          simp [analyzeHtmlValidateV1, jsTruthy, ht, ValidationOutcome.isReject,
            ValidationOutcome.status]
      · by_cases htr : jsTrim t = ""
        · cases domOk <;>
            simp [analyzeHtmlValidateV1, jsTruthy, ht, htr, ValidationOutcome.isReject,
              ValidationOutcome.status]
        · cases domOk <;>
            simp [analyzeHtmlValidateV1, jsTruthy, ht, htr, ValidationOutcome.isReject,
              ValidationOutcome.status]
